import Mathlib

/-!
# EarthViewer: latitude/longitude placement on a rotating globe

A shallow embedding of `src/js/EarthViewer.js`.

JavaScript numbers are kept abstract: every definition is parametric in the
number type `α`, in its arithmetic (`+`, `*`, `/`, unary `-`, literals) and in
the three members of the host `Math` object the code reads (`PI`, `cos`,
`sin`).  Three readings of the arithmetic are used.

* `Double` is IEEE-754 binary64 arithmetic with round-to-nearest-even, the
  arithmetic the program runs on.  The evaluations of the program at concrete
  inputs are done there.
* `ℝ` with every result passed through a rounding function `rnd` is rounded
  arithmetic in general; what is assumed of `rnd` is stated as a hypothesis.
* `ℝ` itself is exact arithmetic, the reading the specification gives to
  latitude, longitude and radius.  Theorems over `ℝ` are stated for an
  arbitrary `Math` wherever they can be, with what they need of `cos` and `sin`
  as hypotheses; `Real.pi`, `Real.cos` and `Real.sin` satisfy those hypotheses.
-/

namespace GlbHosting

/-! ## Data model -/

/-- The three members of the JavaScript `Math` object read by the viewer. -/
structure JSMath (α : Type) where
  PI : α
  cos : α → α
  sin : α → α

/-- The value `new BABYLON.Vector3(x, y, z)`. -/
structure Vector3 (α : Type) where
  x : α
  y : α
  z : α
deriving DecidableEq, Repr

section Geometry

variable {α : Type} [Add α] [Mul α] [Neg α] [Div α] [NatCast α]

/-- The method `getPositionFromLatLon(latitude, longitude, radius)`,
`EarthViewer.js` lines 35-50. -/
def EarthViewer.getPositionFromLatLon (Math : JSMath α) (latitude longitude radius : α) : Vector3 α :=
  let latRad := latitude * (Math.PI / ((180 : ℕ) : α))
  let lonAdjusted := longitude + ((180 : ℕ) : α)
  let lonRad := (-lonAdjusted) * (Math.PI / ((180 : ℕ) : α))
  let R := radius
  let x_math := R * Math.cos latRad * Math.cos lonRad
  let y_math := R * Math.sin latRad
  let z_math := R * Math.cos latRad * Math.sin lonRad
  ⟨x_math, y_math, z_math⟩

end Geometry

section Rounded

variable {α : Type} [Add α] [Mul α] [Neg α] [Div α] [NatCast α]

/-- The method `getPositionFromLatLon` evaluated in rounded arithmetic: the
result of every addition, multiplication and division and the value of every
integer literal pass through `rnd`; unary minus is exact.  With `rnd` the
identity this is `getPositionFromLatLon` itself. -/
def EarthViewer.getPositionFromLatLonRounded (rnd : α → α) (Math : JSMath α)
    (latitude longitude radius : α) : Vector3 α :=
  @EarthViewer.getPositionFromLatLon α ⟨fun a b => rnd (a + b)⟩ ⟨fun a b => rnd (a * b)⟩
    ⟨fun a => -a⟩ ⟨fun a b => rnd (a / b)⟩ ⟨fun n => rnd (n : α)⟩ Math latitude longitude radius

end Rounded

/-! ## Engine objects and viewer state -/

/-- Identity of an object owned by the host or by the 3D engine (the engine
instance, the canvas, a scene, the loaded root mesh, a transform node). -/
abbrev Handle := Nat

/-- The value `new BABYLON.Color3(r, g, b)`. -/
structure Color3 (α : Type) where
  r : α
  g : α
  b : α

/-- A `BABYLON.StandardMaterial` with the properties the viewer writes. -/
structure StandardMaterial (α : Type) where
  name : String
  scene : Option Handle
  emissiveColor : Option (Color3 α)
  disableLighting : Bool

/-- A `BABYLON.TransformNode`: its identity, its name and its Euler rotation. -/
structure TransformNode (α : Type) where
  uniqueId : Handle
  name : String
  rotation : Vector3 α

/-- A mesh returned by `BABYLON.MeshBuilder.CreateSphere(name, { diameter }, scene)`,
with the properties the viewer writes afterwards.  `parent` holds the identity of
the parent node, `none` standing for `null`. -/
structure SphereMesh (α : Type) where
  name : String
  diameter : α
  scene : Option Handle
  material : Option (StandardMaterial α)
  position : Vector3 α
  parent : Option Handle

/-- A `BABYLON.GUI.TextBlock` with the properties the viewer writes. -/
structure TextBlock where
  text : String
  color : String
  fontSize : Nat

/-- The texture returned by `BABYLON.GUI.AdvancedDynamicTexture.CreateForMesh(mesh, width, height)`
together with the controls added to it. -/
structure AdvancedDynamicTexture where
  meshName : String
  width : Nat
  height : Nat
  controls : List TextBlock

/-- What the engine holds on behalf of the viewer: every primitive created so
far, in creation order, and the number of `scene.render()` calls made. -/
structure World (α : Type) where
  meshes : List (SphereMesh α)
  materials : List (StandardMaterial α)
  guiTextures : List AdvancedDynamicTexture
  rendered : Nat

/-- The fields of an `EarthViewer` instance (`this`), `none` standing for `null`. -/
structure EarthViewer (α : Type) where
  engine : Handle
  canvas : Handle
  earthModelRoot : Option Handle
  rotationNode : Option (TransformNode α)
  scene : Option Handle
  scaleFactor : α
  visualRadius : α
  rotationSpeed : α
  isRotating : Bool
  earthRadiusScaled : α

/-- A viewer together with the engine-side objects. -/
structure State (α : Type) where
  viewer : EarthViewer α
  world : World α

section Methods

variable {α : Type} [Add α] [Mul α] [Neg α] [Div α] [NatCast α] [OfScientific α]

/-- The class constructor, `EarthViewer.js` lines 8-22. -/
def EarthViewer.constructor (engine canvas : Handle) : EarthViewer α :=
  let scaleFactor : α := 0.01
  { engine := engine
    canvas := canvas
    earthModelRoot := none
    rotationNode := none
    scene := none
    scaleFactor := scaleFactor
    visualRadius := 8.0
    rotationSpeed := 0.0021
    isRotating := true
    earthRadiusScaled := (((58 : ℕ) : α) * scaleFactor) / ((2 : ℕ) : α) }

/-- The call `BABYLON.MeshBuilder.CreateSphere(name, { diameter }, scene)`: a
fresh mesh at the origin with no material and no parent. -/
def CreateSphere (name : String) (diameter : α) (scene : Option Handle) : SphereMesh α :=
  { name := name
    diameter := diameter
    scene := scene
    material := none
    position := ⟨((0 : ℕ) : α), ((0 : ℕ) : α), ((0 : ℕ) : α)⟩
    parent := none }

/-- The method `addGeoMarker(latitude, longitude, color)`, `EarthViewer.js`
lines 59-78.  `color` is `none` when the argument is omitted or falsy;
`numToString` is the host's Number-to-String conversion used by `"..." + latitude`.
The mesh and its material are entered in the world once the method has
finished writing their properties. -/
def EarthViewer.addGeoMarker (Math : JSMath α) (numToString : α → String) (s : State α)
    (latitude longitude : α) (color : Option (Color3 α)) : State α :=
  match s.viewer.earthModelRoot with
  | none => s
  | some _ =>
    let currentEarthRadius := s.viewer.earthRadiusScaled
    let altitude : α := 4.9
    let markerSize : α := 0.1
    let finalRadius := currentEarthRadius + altitude
    let markerPosition := EarthViewer.getPositionFromLatLon Math latitude longitude finalRadius
    let marker : SphereMesh α :=
      CreateSphere ("GeoMarker_" ++ numToString latitude) markerSize s.viewer.scene
    let markerMat : StandardMaterial α :=
      { name := "mat_" ++ numToString latitude
        scene := s.viewer.scene
        emissiveColor := none
        disableLighting := false }
    let markerMat := { markerMat with
      emissiveColor := some (color.getD ⟨((1 : ℕ) : α), ((0 : ℕ) : α), ((0 : ℕ) : α)⟩) }
    let markerMat := { markerMat with disableLighting := true }
    let marker := { marker with material := some markerMat }
    let marker := { marker with position := markerPosition }
    let marker := { marker with parent := s.viewer.rotationNode.map (fun n => n.uniqueId) }
    { s with world := { s.world with
        meshes := s.world.meshes ++ [marker]
        materials := s.world.materials ++ [markerMat] } }

/-- The method `addLatLonGrid(stepDeg = 30)`, `EarthViewer.js` lines 83-109.
Everything after the binding of `earthRadius` is commented out in the source. -/
def EarthViewer.addLatLonGrid (s : State α) (stepDeg : Option α) : State α :=
  let _stepDeg : α := stepDeg.getD ((30 : ℕ) : α)
  match s.viewer.earthModelRoot with
  | none => s
  | some _ =>
    let _earthRadius : α := ((10 : ℕ) : α)
    s

/-- The method `addCoordinateLabel(latitude, longitude, text)`, `EarthViewer.js`
lines 114-130. -/
def EarthViewer.addCoordinateLabel (Math : JSMath α) (s : State α)
    (latitude longitude : α) (text : String) : State α :=
  match s.viewer.earthModelRoot with
  | none => s
  | some _ =>
    let earthRadius := s.viewer.visualRadius
    let pos := EarthViewer.getPositionFromLatLon Math latitude longitude (earthRadius * 1.05)
    let sphere : SphereMesh α := CreateSphere ("coordLabel_" ++ text) 0.1 s.viewer.scene
    let sphere := { sphere with position := pos }
    let sphere := { sphere with parent := s.viewer.rotationNode.map (fun n => n.uniqueId) }
    let gui : AdvancedDynamicTexture :=
      { meshName := sphere.name, width := 256, height := 256, controls := [] }
    let label : TextBlock := { text := text, color := "white", fontSize := 50 }
    let gui := { gui with controls := gui.controls ++ [label] }
    { s with world := { s.world with
        meshes := s.world.meshes ++ [sphere]
        guiTextures := s.world.guiTextures ++ [gui] } }

/-- The arrow function that `startRenderLoop(scene)` hands to
`engine.runRenderLoop`, `EarthViewer.js` lines 185-190: one invocation. -/
def EarthViewer.renderLoopCallback (s : State α) (_scene : Handle) : State α :=
  let s : State α :=
    match s.viewer.rotationNode with
    | some node =>
      if s.viewer.isRotating then
        { s with viewer := { s.viewer with
            rotationNode := some { node with
              rotation := { node.rotation with y := node.rotation.y + s.viewer.rotationSpeed } } } }
      else s
    | none => s
  { s with world := { s.world with rendered := s.world.rendered + 1 } }

/-- The method `startRenderLoop(scene)`, `EarthViewer.js` lines 184-191: the
engine invokes the registered callback once per rendered frame, and the result
is the state reached after the given number of frames. -/
def EarthViewer.startRenderLoop (s : State α) (scene : Handle) : Nat → State α
  | 0 => s
  | n + 1 => EarthViewer.renderLoopCallback (EarthViewer.startRenderLoop s scene n) scene

/-- The yaw `rotationNode.rotation.y`, when the rotation node exists. -/
def State.yaw (s : State α) : Option α :=
  s.viewer.rotationNode.map (fun n => n.rotation.y)

end Methods

/-! ## IEEE-754 binary64 arithmetic -/

/-- A JavaScript Number, that is an IEEE-754 binary64 value.  A finite value is
`± m * 2 ^ e` with `m` odd, or zero (`m = 0`, `e = 0`, not negative), so equal
numbers are equal terms.  The two zeros are identified, as `===` identifies
them; `nan` is a single term, although `NaN === NaN` is false. -/
inductive Double where
  | nan : Double
  | inf (negative : Bool) : Double
  | finite (negative : Bool) (m : Nat) (e : Int) : Double
deriving DecidableEq, Repr

namespace Double

/-- The number `0`. -/
def zero : Double := .finite false 0 0

/-- Number of binary digits of the second argument; the first bounds the recursion. -/
def bitsAux : Nat → Nat → Nat
  | 0, _ => 0
  | fuel + 1, n => if n = 0 then 0 else bitsAux fuel (n / 2) + 1

/-- Number of binary digits of `n`: `2 ^ (bits n - 1) ≤ n < 2 ^ bits n` for `0 < n`. -/
def bits (n : Nat) : Nat := bitsAux n n

/-- The fraction `n * 2 ^ e` as numerator and denominator. -/
def scale (n : Nat) (e : Int) : Nat × Nat :=
  if e < 0 then (n, 2 ^ (-e).toNat) else (n * 2 ^ e.toNat, 1)

/-- Rounding of the exact value `± n / d` to binary64: round to nearest, ties to
even, 53 significant bits, gradual underflow below `2 ^ (-1022)` (least unit
`2 ^ (-1074)`), overflow to infinity from `2 ^ 1024` on. -/
def round (negative : Bool) (n d : Nat) : Double :=
  if n = 0 then zero else
  let k : Int := (bits n : Int) - (bits d : Int)
  let E : Int :=
    if (if k < 0 then d ≤ n * 2 ^ (-k).toNat else d * 2 ^ k.toNat ≤ n) then k else k - 1
  let q : Int := max (E - 52) (-1074)
  let num : Nat := if q < 0 then n * 2 ^ (-q).toNat else n
  let den : Nat := if q < 0 then d else d * 2 ^ q.toNat
  let quo := num / den
  let rem := num % den
  let M := if den < 2 * rem ∨ (2 * rem = den ∧ quo % 2 = 1) then quo + 1 else quo
  if M = 0 then zero
  else if 971 < q ∨ (q = 971 ∧ 2 ^ 53 ≤ M) then .inf negative
  else
    let t := bits (M ^^^ (M - 1)) - 1
    .finite negative (M / 2 ^ t) (q + (t : Int))

/-- Unary minus. -/
def neg : Double → Double
  | .nan => .nan
  | .inf s => .inf (!s)
  | .finite s m e => if m = 0 then zero else .finite (!s) m e

/-- Addition: the exact sum, rounded. -/
def add : Double → Double → Double
  | .nan, _ => .nan
  | _, .nan => .nan
  | .inf a, .inf b => if a = b then .inf a else .nan
  | .inf a, .finite _ _ _ => .inf a
  | .finite _ _ _, .inf b => .inf b
  | .finite sa ma ea, .finite sb mb eb =>
    let e0 := min ea eb
    let A : Nat := ma * 2 ^ (ea - e0).toNat
    let B : Nat := mb * 2 ^ (eb - e0).toNat
    let S : Int := (if sa then -(A : Int) else (A : Int)) + (if sb then -(B : Int) else (B : Int))
    round (decide (S < 0)) (scale S.natAbs e0).1 (scale S.natAbs e0).2

/-- Multiplication: the exact product, rounded. -/
def mul : Double → Double → Double
  | .nan, _ => .nan
  | _, .nan => .nan
  | .inf a, .inf b => .inf (a != b)
  | .inf a, .finite sb mb _ => if mb = 0 then .nan else .inf (a != sb)
  | .finite sa ma _, .inf b => if ma = 0 then .nan else .inf (sa != b)
  | .finite sa ma ea, .finite sb mb eb =>
    round (sa != sb) (scale (ma * mb) (ea + eb)).1 (scale (ma * mb) (ea + eb)).2

/-- Division: the exact quotient, rounded.  Since the zeros are identified, a
non-zero number divided by zero takes the sign of the dividend. -/
def div : Double → Double → Double
  | .nan, _ => .nan
  | _, .nan => .nan
  | .inf _, .inf _ => .nan
  | .inf a, .finite sb _ _ => .inf (a != sb)
  | .finite _ _ _, .inf _ => zero
  | .finite sa ma ea, .finite sb mb eb =>
    if mb = 0 then (if ma = 0 then .nan else .inf sa)
    else round (sa != sb) (scale ma (ea - eb)).1 ((scale 1 (eb - ea)).1 * mb)

instance : Add Double := ⟨add⟩

instance : Mul Double := ⟨mul⟩

instance : Neg Double := ⟨neg⟩

instance : Div Double := ⟨div⟩

/-- An integer literal denotes the nearest double. -/
instance : NatCast Double := ⟨fun n => round false n 1⟩

/-- An integer literal denotes the nearest double. -/
instance (n : Nat) : OfNat Double n := ⟨round false n 1⟩

/-- A decimal literal denotes the nearest double. -/
instance : OfScientific Double :=
  ⟨fun mantissa exponentSign decimalExponent =>
    if exponentSign then round false mantissa (10 ^ decimalExponent)
    else round false (mantissa * 10 ^ decimalExponent) 1⟩

/-- The exact rational value of a finite double. -/
def toRat : Double → Option ℚ
  | .finite s m e =>
    some ((if s then -1 else 1) *
      (if e < 0 then mkRat m (2 ^ (-e).toNat) else ((m * 2 ^ e.toNat : Nat) : ℚ)))
  | _ => none

/-- The host's `Math.cos` on doubles.  ECMAScript leaves it implementation
approximated; this is the table of the values hosts return (cosine rounded to
the nearest double) at the arguments reached by the evaluations in this file,
and `NaN` at every other argument. -/
def hostCos (x : Double) : Double :=
  if x = 0 then 1
  else if x = 3.141592653589793 ∨ x = -3.141592653589793 then -1
  else if x = 1.5707963267948966 ∨ x = -1.5707963267948966 then 6.123233995736766e-17
  else if x = 0.17453292519943295 then 0.984807753012208
  else nan

/-- The host's `Math.sin` on doubles, given as `hostCos` is. -/
def hostSin (x : Double) : Double :=
  if x = 0 then 0
  else if x = 3.141592653589793 then 1.2246467991473532e-16
  else if x = -3.141592653589793 then -1.2246467991473532e-16
  else if x = 1.5707963267948966 then 1
  else if x = -1.5707963267948966 then -1
  else if x = 0.17453292519943295 then 0.17364817766693033
  else nan

/-- The host's `Math` object on doubles: `Math.PI` is the double nearest to π. -/
def hostMath : JSMath Double := ⟨3.141592653589793, hostCos, hostSin⟩

end Double

/-! ## Sample evaluations of the binary64 arithmetic -/

/-- Well-known results of double arithmetic, and the constants of the viewer:
`0.1 + 0.2` is `0.30000000000000004`, `1 / 3` is `0.3333333333333333`,
`2 ^ 53 + 1` is `2 ^ 53`, `Math.PI / 180` is `0.017453292519943295`,
`90 * (Math.PI / 180)` is `1.5707963267948966`, `-(0 + 180) * (Math.PI / 180)`
is `-3.141592653589793`, and `58 * 0.01 / 2` is `0.29`. -/
theorem Double.sample_evaluations :
    (0.1 : Double) + 0.2 = 0.30000000000000004 ∧
    (1 : Double) / 3 = 0.3333333333333333 ∧
    (9007199254740992 : Double) + 1 = 9007199254740992 ∧
    Double.hostMath.PI / 180 = 0.017453292519943295 ∧
    (90 : Double) * (Double.hostMath.PI / 180) = 1.5707963267948966 ∧
    -((0 : Double) + 180) * (Double.hostMath.PI / 180) = -3.141592653589793 ∧
    (EarthViewer.constructor 0 1 : EarthViewer Double).earthRadiusScaled = 0.29 := by
  decide!

/-- The double `Math.PI` is the rational `884279719003555 / 2 ^ 48`, which lies
strictly between `0` and `π`; so the exact sine of `Math.PI` and the exact
cosine of `Math.PI / 2` are positive, and a host that approximates them cannot
return `0` there. -/
theorem Double.exact_trig_at_PI :
    Double.toRat Double.hostMath.PI = some (884279719003555 / 2 ^ 48) ∧
    (884279719003555 / 2 ^ 48 : ℝ) < Real.pi ∧
    0 < Real.sin (884279719003555 / 2 ^ 48) ∧
    0 < Real.cos (884279719003555 / 2 ^ 48 / 2) := by
  have below : (884279719003555 / 2 ^ 48 : ℝ) < Real.pi :=
    lt_trans (by norm_num) Real.pi_gt_d20
  have above : (0 : ℝ) < 884279719003555 / 2 ^ 48 := by positivity
  refine ⟨by decide!, below, Real.sin_pos_of_pos_of_lt_pi above below, ?_⟩
  apply Real.cos_pos_of_mem_Ioo
  constructor <;> linarith [Real.pi_pos]

/-! ## Facts about the render callback shared by the proofs -/

section CallbackLemmas

variable {α : Type} [Add α]

/-- One invocation of the render callback does not write `isRotating`. -/
theorem renderLoopCallback_isRotating (s : State α) (scene : Handle) :
    (EarthViewer.renderLoopCallback s scene).viewer.isRotating = s.viewer.isRotating := by
  unfold EarthViewer.renderLoopCallback
  cases hnode : s.viewer.rotationNode <;> cases hrot : s.viewer.isRotating <;> simp [hrot]

/-- One invocation of the render callback does not write `rotationSpeed`. -/
theorem renderLoopCallback_rotationSpeed (s : State α) (scene : Handle) :
    (EarthViewer.renderLoopCallback s scene).viewer.rotationSpeed = s.viewer.rotationSpeed := by
  unfold EarthViewer.renderLoopCallback
  cases hnode : s.viewer.rotationNode <;> cases hrot : s.viewer.isRotating <;> simp

/-- The yaw after one invocation of the render callback. -/
theorem renderLoopCallback_yaw (s : State α) (scene : Handle) :
    (EarthViewer.renderLoopCallback s scene).yaw =
      if s.viewer.isRotating then s.yaw.map (fun y => y + s.viewer.rotationSpeed)
      else s.yaw := by
  unfold EarthViewer.renderLoopCallback State.yaw
  cases hnode : s.viewer.rotationNode <;> cases hrot : s.viewer.isRotating <;> simp [hnode]

/-- The flag `isRotating` after any number of frames is the initial one. -/
theorem startRenderLoop_isRotating (s : State α) (scene : Handle) (n : ℕ) :
    (EarthViewer.startRenderLoop s scene n).viewer.isRotating = s.viewer.isRotating := by
  induction n with
  | zero => rfl
  | succ n ih => rw [EarthViewer.startRenderLoop, renderLoopCallback_isRotating, ih]

/-- The field `rotationSpeed` after any number of frames is the initial one. -/
theorem startRenderLoop_rotationSpeed (s : State α) (scene : Handle) (n : ℕ) :
    (EarthViewer.startRenderLoop s scene n).viewer.rotationSpeed = s.viewer.rotationSpeed := by
  induction n with
  | zero => rfl
  | succ n ih => rw [EarthViewer.startRenderLoop, renderLoopCallback_rotationSpeed, ih]

/-- The yaw after any number of frames: one addition of `rotationSpeed` per
frame, each carried out in the arithmetic of `α`. -/
theorem startRenderLoop_yaw (s : State α) (scene : Handle) (n : ℕ) :
    (EarthViewer.startRenderLoop s scene n).yaw =
      if s.viewer.isRotating then
        s.yaw.map (fun y => (fun v => v + s.viewer.rotationSpeed)^[n] y)
      else s.yaw := by
  induction n with
  | zero =>
    cases h : s.yaw <;> simp [EarthViewer.startRenderLoop, h]
  | succ n ih =>
    rw [EarthViewer.startRenderLoop, renderLoopCallback_yaw, startRenderLoop_isRotating,
      startRenderLoop_rotationSpeed, ih]
    cases hrot : s.viewer.isRotating
    · simp
    · cases h : s.yaw
      · simp
      · simp [Function.iterate_succ_apply']

end CallbackLemmas

/-- In exact arithmetic, adding `v` to `y` once per frame for `n` frames gives `y + n * v`. -/
theorem iterate_add_exact (y v : ℝ) (n : ℕ) :
    (fun w => w + v)^[n] y = y + (n : ℝ) * v := by
  induction n with
  | zero => simp
  | succ n ih =>
    rw [Function.iterate_succ_apply', ih, Nat.cast_succ]
    ring

/-! ## Propagation of relative rounding errors -/

/-- A value within relative error `u` of `p` has its square between
`p ^ 2 * (1 - u) ^ 2` and `p ^ 2 * (1 + u) ^ 2`. -/
theorem sq_bounds_of_rel_err {p x u : ℝ} (hu1 : u ≤ 1)
    (h : |x - p| ≤ u * |p|) :
    p ^ 2 * (1 - u) ^ 2 ≤ x ^ 2 ∧ x ^ 2 ≤ p ^ 2 * (1 + u) ^ 2 := by
  have hp := abs_nonneg p
  have hx := abs_nonneg x
  have up : |x| ≤ |p| * (1 + u) := by
    have t : |x| ≤ |p| + |x - p| := by
      have e : x = p + (x - p) := by ring
      calc |x| = |p + (x - p)| := by rw [← e]
        _ ≤ |p| + |x - p| := abs_add _ _
    linarith
  have low : |p| * (1 - u) ≤ |x| := by
    have t : |p| ≤ |x| + |x - p| := by
      have e : p = x - (x - p) := by ring
      calc |p| = |x - (x - p)| := by rw [← e]
        _ ≤ |x| + |x - p| := abs_sub _ _
    linarith
  have hlow0 : 0 ≤ |p| * (1 - u) := mul_nonneg hp (by linarith)
  constructor
  · have := pow_le_pow_left₀ hlow0 low 2
    rw [mul_pow, sq_abs, sq_abs] at this
    exact this
  · have := pow_le_pow_left₀ hx up 2
    rw [mul_pow, sq_abs, sq_abs] at this
    exact this

/-- Lower bound on `x ^ 2 + y ^ 2 + z ^ 2` from lower bounds on the squares of the
rounded products. -/
theorem sphere_lower_of_parts {r c s cl sl a x y z V D : ℝ}
    (hV0 : 0 ≤ V) (hV1 : V ≤ 1) (hD0 : 0 ≤ D) (hD1 : D ≤ 1)
    (hlat : D ≤ c ^ 2 + s ^ 2) (hlon : D ≤ cl ^ 2 + sl ^ 2)
    (ha : (r * c) ^ 2 * V ≤ a ^ 2) (hx : (a * cl) ^ 2 * V ≤ x ^ 2)
    (hy : (r * s) ^ 2 * V ≤ y ^ 2) (hz : (a * sl) ^ 2 * V ≤ z ^ 2) :
    r ^ 2 * (V ^ 2 * D ^ 2) ≤ x ^ 2 + y ^ 2 + z ^ 2 := by
  have hVD0 : 0 ≤ V * D := mul_nonneg hV0 hD0
  have hVD1 : V * D ≤ 1 := by
    calc V * D ≤ 1 * D := mul_le_mul_of_nonneg_right hV1 hD0
      _ ≤ 1 := by linarith
  have hrs : 0 ≤ r ^ 2 * s ^ 2 := mul_nonneg (sq_nonneg r) (sq_nonneg s)
  have s1 : V * (a ^ 2 * (cl ^ 2 + sl ^ 2) + r ^ 2 * s ^ 2) ≤ x ^ 2 + y ^ 2 + z ^ 2 := by
    have e : V * (a ^ 2 * (cl ^ 2 + sl ^ 2) + r ^ 2 * s ^ 2) =
        (a * cl) ^ 2 * V + (r * s) ^ 2 * V + (a * sl) ^ 2 * V := by ring
    rw [e]
    linarith
  have s2 : a ^ 2 * D ≤ a ^ 2 * (cl ^ 2 + sl ^ 2) :=
    mul_le_mul_of_nonneg_left hlon (sq_nonneg a)
  have s3 : (r * c) ^ 2 * V * D ≤ a ^ 2 * D := mul_le_mul_of_nonneg_right ha hD0
  have s4 : V * D * (r ^ 2 * s ^ 2) ≤ r ^ 2 * s ^ 2 := mul_le_of_le_one_left hrs hVD1
  have s5 : V * D * (r ^ 2 * (c ^ 2 + s ^ 2)) ≤ a ^ 2 * (cl ^ 2 + sl ^ 2) + r ^ 2 * s ^ 2 := by
    have e : V * D * (r ^ 2 * (c ^ 2 + s ^ 2)) =
        (r * c) ^ 2 * V * D + V * D * (r ^ 2 * s ^ 2) := by ring
    rw [e]
    linarith
  have s6 : V * D * (r ^ 2 * D) ≤ V * D * (r ^ 2 * (c ^ 2 + s ^ 2)) :=
    mul_le_mul_of_nonneg_left (mul_le_mul_of_nonneg_left hlat (sq_nonneg r)) hVD0
  calc r ^ 2 * (V ^ 2 * D ^ 2) = V * (V * D * (r ^ 2 * D)) := by ring
    _ ≤ V * (a ^ 2 * (cl ^ 2 + sl ^ 2) + r ^ 2 * s ^ 2) :=
        mul_le_mul_of_nonneg_left (le_trans s6 s5) hV0
    _ ≤ x ^ 2 + y ^ 2 + z ^ 2 := s1

/-- Upper bound on `x ^ 2 + y ^ 2 + z ^ 2` from upper bounds on the squares of the
rounded products. -/
theorem sphere_upper_of_parts {r c s cl sl a x y z U E : ℝ}
    (hU1 : 1 ≤ U) (hE1 : 1 ≤ E)
    (hlat : c ^ 2 + s ^ 2 ≤ E) (hlon : cl ^ 2 + sl ^ 2 ≤ E)
    (ha : a ^ 2 ≤ (r * c) ^ 2 * U) (hx : x ^ 2 ≤ (a * cl) ^ 2 * U)
    (hy : y ^ 2 ≤ (r * s) ^ 2 * U) (hz : z ^ 2 ≤ (a * sl) ^ 2 * U) :
    x ^ 2 + y ^ 2 + z ^ 2 ≤ r ^ 2 * (U ^ 2 * E ^ 2) := by
  have hU0 : 0 ≤ U := by linarith
  have hE0 : 0 ≤ E := by linarith
  have hUE0 : 0 ≤ U * E := mul_nonneg hU0 hE0
  have hUE1 : 1 ≤ U * E := by
    calc (1 : ℝ) ≤ 1 * E := by linarith
      _ ≤ U * E := mul_le_mul_of_nonneg_right hU1 hE0
  have hrs : 0 ≤ r ^ 2 * s ^ 2 := mul_nonneg (sq_nonneg r) (sq_nonneg s)
  have s1 : x ^ 2 + y ^ 2 + z ^ 2 ≤ U * (a ^ 2 * (cl ^ 2 + sl ^ 2) + r ^ 2 * s ^ 2) := by
    have e : U * (a ^ 2 * (cl ^ 2 + sl ^ 2) + r ^ 2 * s ^ 2) =
        (a * cl) ^ 2 * U + (r * s) ^ 2 * U + (a * sl) ^ 2 * U := by ring
    rw [e]
    linarith
  have s2 : a ^ 2 * (cl ^ 2 + sl ^ 2) ≤ a ^ 2 * E :=
    mul_le_mul_of_nonneg_left hlon (sq_nonneg a)
  have s3 : a ^ 2 * E ≤ (r * c) ^ 2 * U * E := mul_le_mul_of_nonneg_right ha hE0
  have s4 : r ^ 2 * s ^ 2 ≤ U * E * (r ^ 2 * s ^ 2) := le_mul_of_one_le_left hrs hUE1
  have s5 : a ^ 2 * (cl ^ 2 + sl ^ 2) + r ^ 2 * s ^ 2 ≤ U * E * (r ^ 2 * (c ^ 2 + s ^ 2)) := by
    have e : U * E * (r ^ 2 * (c ^ 2 + s ^ 2)) =
        (r * c) ^ 2 * U * E + U * E * (r ^ 2 * s ^ 2) := by ring
    rw [e]
    linarith
  have s6 : U * E * (r ^ 2 * (c ^ 2 + s ^ 2)) ≤ U * E * (r ^ 2 * E) :=
    mul_le_mul_of_nonneg_left (mul_le_mul_of_nonneg_left hlat (sq_nonneg r)) hUE0
  calc x ^ 2 + y ^ 2 + z ^ 2 ≤ U * (a ^ 2 * (cl ^ 2 + sl ^ 2) + r ^ 2 * s ^ 2) := s1
    _ ≤ U * (U * E * (r ^ 2 * E)) := mul_le_mul_of_nonneg_left (le_trans s5 s6) hU0
    _ = r ^ 2 * (U ^ 2 * E ^ 2) := by ring

/-- The sum of squares of three values obtained from `r`, two cosines and two
sines by products of relative error at most `u`, when the sines and cosines
satisfy the Pythagorean identity up to `ε`. -/
theorem sphere_bounds_of_rel_err {r c s cl sl a x y z u ε : ℝ}
    (hu0 : 0 ≤ u) (hu1 : u ≤ 1) (hε0 : 0 ≤ ε) (hε1 : ε ≤ 1)
    (hlat : |s ^ 2 + c ^ 2 - 1| ≤ ε) (hlon : |sl ^ 2 + cl ^ 2 - 1| ≤ ε)
    (ha : |a - r * c| ≤ u * |r * c|) (hx : |x - a * cl| ≤ u * |a * cl|)
    (hy : |y - r * s| ≤ u * |r * s|) (hz : |z - a * sl| ≤ u * |a * sl|) :
    r ^ 2 * ((1 - u) ^ 4 * (1 - ε) ^ 2) ≤ x ^ 2 + y ^ 2 + z ^ 2 ∧
    x ^ 2 + y ^ 2 + z ^ 2 ≤ r ^ 2 * ((1 + u) ^ 4 * (1 + ε) ^ 2) := by
  obtain ⟨la, ua⟩ := sq_bounds_of_rel_err hu1 ha
  obtain ⟨lx, ux⟩ := sq_bounds_of_rel_err hu1 hx
  obtain ⟨ly, uy⟩ := sq_bounds_of_rel_err hu1 hy
  obtain ⟨lz, uz⟩ := sq_bounds_of_rel_err hu1 hz
  obtain ⟨llat, ulat⟩ := abs_le.mp hlat
  obtain ⟨llon, ulon⟩ := abs_le.mp hlon
  have hV1 : (1 - u) ^ 2 ≤ 1 := by
    have h := mul_le_mul (show 1 - u ≤ 1 by linarith) (show 1 - u ≤ 1 by linarith)
      (show (0 : ℝ) ≤ 1 - u by linarith) (show (0 : ℝ) ≤ 1 by norm_num)
    rw [sq]
    linarith
  have hU1 : 1 ≤ (1 + u) ^ 2 := by
    have h := mul_le_mul (show (1 : ℝ) ≤ 1 + u by linarith) (show (1 : ℝ) ≤ 1 + u by linarith)
      (show (0 : ℝ) ≤ 1 by norm_num) (show (0 : ℝ) ≤ 1 + u by linarith)
    rw [sq]
    linarith
  constructor
  · have h := sphere_lower_of_parts (sq_nonneg (1 - u)) hV1 (show (0 : ℝ) ≤ 1 - ε by linarith)
      (show 1 - ε ≤ 1 by linarith) (by linarith) (by linarith) la lx ly lz
    have e : r ^ 2 * ((1 - u) ^ 4 * (1 - ε) ^ 2) = r ^ 2 * (((1 - u) ^ 2) ^ 2 * (1 - ε) ^ 2) := by
      ring
    rw [e]
    exact h
  · have h := sphere_upper_of_parts hU1 (show (1 : ℝ) ≤ 1 + ε by linarith)
      (by linarith) (by linarith) ua ux uy uz
    have e : r ^ 2 * ((1 + u) ^ 4 * (1 + ε) ^ 2) = r ^ 2 * (((1 + u) ^ 2) ^ 2 * (1 + ε) ^ 2) := by
      ring
    rw [e]
    exact h

/-! ## The coordinate mapping -/

/-- C1: over the reals, `getPositionFromLatLon latitude longitude radius` is the
vector with `x = radius * cos latRad * cos lonRad`, `y = radius * sin latRad`,
`z = radius * cos latRad * sin lonRad`, where `latRad = latitude * π / 180` and
`lonRad = -(longitude + 180) * π / 180`. -/
theorem getPositionFromLatLon_formula (latitude longitude radius : ℝ) :
    EarthViewer.getPositionFromLatLon ⟨Real.pi, Real.cos, Real.sin⟩ latitude longitude radius =
      ⟨radius * Real.cos (latitude * Real.pi / 180)
          * Real.cos (-(longitude + 180) * Real.pi / 180),
        radius * Real.sin (latitude * Real.pi / 180),
        radius * Real.cos (latitude * Real.pi / 180)
          * Real.sin (-(longitude + 180) * Real.pi / 180)⟩ := by
  simp only [EarthViewer.getPositionFromLatLon, Nat.cast_ofNat, mul_div_assoc]

/-- C2, corrected statement: in exact real arithmetic, shifting the longitude by `360 * k`
for an integer `k` leaves the position unchanged whenever `Math.cos` and
`Math.sin` take the same value at the longitude angle and at that angle less
`k * (2 * Math.PI)`, as the exact cosine and sine with `Math.PI = π` do.  For an
arbitrary `Math`, longitude `0` and longitude `-360` are mapped through the
opposite angles `-A` and `A`, where `A = 180 * (Math.PI / 180)`, so they give
the same position whenever the cosine and the sine agree at `-A` and `A`. -/
theorem getPositionFromLatLon_longitude_periodic_of_trig (Math : JSMath ℝ)
    (latitude longitude radius : ℝ) (k : ℤ)
    (hcos : Math.cos (-(longitude + 180) * (Math.PI / 180) - (k : ℝ) * (2 * Math.PI)) =
      Math.cos (-(longitude + 180) * (Math.PI / 180)))
    (hsin : Math.sin (-(longitude + 180) * (Math.PI / 180) - (k : ℝ) * (2 * Math.PI)) =
      Math.sin (-(longitude + 180) * (Math.PI / 180))) :
    EarthViewer.getPositionFromLatLon Math latitude (longitude + 360 * (k : ℝ)) radius =
      EarthViewer.getPositionFromLatLon Math latitude longitude radius ∧
    (EarthViewer.getPositionFromLatLon Math latitude 0 radius =
        ⟨radius * Math.cos (latitude * (Math.PI / 180)) * Math.cos (-(180 * (Math.PI / 180))),
          radius * Math.sin (latitude * (Math.PI / 180)),
          radius * Math.cos (latitude * (Math.PI / 180))
            * Math.sin (-(180 * (Math.PI / 180)))⟩ ∧
      EarthViewer.getPositionFromLatLon Math latitude (-360) radius =
        ⟨radius * Math.cos (latitude * (Math.PI / 180)) * Math.cos (180 * (Math.PI / 180)),
          radius * Math.sin (latitude * (Math.PI / 180)),
          radius * Math.cos (latitude * (Math.PI / 180))
            * Math.sin (180 * (Math.PI / 180))⟩) ∧
    (Math.cos (-(180 * (Math.PI / 180))) = Math.cos (180 * (Math.PI / 180)) →
      Math.sin (-(180 * (Math.PI / 180))) = Math.sin (180 * (Math.PI / 180)) →
      EarthViewer.getPositionFromLatLon Math latitude 0 radius =
        EarthViewer.getPositionFromLatLon Math latitude (-360) radius) := by
  have shift : -(longitude + 360 * (k : ℝ) + 180) * (Math.PI / 180) =
      -(longitude + 180) * (Math.PI / 180) - (k : ℝ) * (2 * Math.PI) := by
    ring
  have west : ∀ c : ℝ, -((0 : ℝ) + 180) * c = -(180 * c) := by
    intro c
    ring
  have east : ∀ c : ℝ, -((-360 : ℝ) + 180) * c = 180 * c := by
    intro c
    ring
  refine ⟨?_, ⟨?_, ?_⟩, ?_⟩
  · simp only [EarthViewer.getPositionFromLatLon, Nat.cast_ofNat, shift, hcos, hsin]
  · simp only [EarthViewer.getPositionFromLatLon, Nat.cast_ofNat, west]
  · simp only [EarthViewer.getPositionFromLatLon, Nat.cast_ofNat, east]
  · intro hc hs
    simp only [EarthViewer.getPositionFromLatLon, Nat.cast_ofNat, west, east, hc, hs]

/-- Witness for C2: with `Math.PI = π` and the exact cosine and sine, at
latitude `10`, longitude `0`, radius `1` and `k = -1`, the hypotheses hold, the
shifted longitude gives the same position, and so do longitude `0` and `-360`. -/
theorem getPositionFromLatLon_longitude_periodic_of_trig_witness :
    Real.cos (-((0 : ℝ) + 180) * (Real.pi / 180) - ((-1 : ℤ) : ℝ) * (2 * Real.pi)) =
      Real.cos (-((0 : ℝ) + 180) * (Real.pi / 180)) ∧
    Real.sin (-((0 : ℝ) + 180) * (Real.pi / 180) - ((-1 : ℤ) : ℝ) * (2 * Real.pi)) =
      Real.sin (-((0 : ℝ) + 180) * (Real.pi / 180)) ∧
    EarthViewer.getPositionFromLatLon ⟨Real.pi, Real.cos, Real.sin⟩
        10 (0 + 360 * ((-1 : ℤ) : ℝ)) 1 =
      EarthViewer.getPositionFromLatLon ⟨Real.pi, Real.cos, Real.sin⟩ 10 0 1 ∧
    EarthViewer.getPositionFromLatLon ⟨Real.pi, Real.cos, Real.sin⟩ 10 0 1 =
      EarthViewer.getPositionFromLatLon ⟨Real.pi, Real.cos, Real.sin⟩ 10 (-360) 1 := by
  have half_turn : (180 : ℝ) * (Real.pi / 180) = Real.pi := by ring
  have h := getPositionFromLatLon_longitude_periodic_of_trig ⟨Real.pi, Real.cos, Real.sin⟩
    10 0 1 (-1) (Real.cos_sub_int_mul_two_pi _ _) (Real.sin_sub_int_mul_two_pi _ _)
  refine ⟨Real.cos_sub_int_mul_two_pi _ _, Real.sin_sub_int_mul_two_pi _ _, h.1, h.2.2 ?_ ?_⟩
  · simp only [Real.cos_neg]
  · simp only [half_turn, Real.sin_neg, Real.sin_pi, neg_zero]

/-- C2, counterexample on doubles: at latitude `10` and radius `1`,
longitude `0` and longitude `-360` give positions whose `z` components are
`-1.2060416625018976e-16` and `1.2060416625018976e-16`. -/
theorem longitude_period_fails_on_doubles :
    EarthViewer.getPositionFromLatLon Double.hostMath 10 0 1 =
      ⟨-0.984807753012208, 0.17364817766693033, -1.2060416625018976e-16⟩ ∧
    EarthViewer.getPositionFromLatLon Double.hostMath 10 (-360) 1 =
      ⟨-0.984807753012208, 0.17364817766693033, 1.2060416625018976e-16⟩ ∧
    EarthViewer.getPositionFromLatLon Double.hostMath 10 0 1 ≠
      EarthViewer.getPositionFromLatLon Double.hostMath 10 (-360) 1 := by
  decide!

/-- C3, corrected statement: at latitude `90` (and likewise `-90`) the `y` component is
`radius * Math.sin latRad` and the `x` and `z` components are at most
`|radius * Math.cos latRad|` in absolute value, where
`latRad = 90 * (Math.PI / 180)`, as long as the cosine and sine of the longitude
angle are at most `1` in absolute value.  The position is `(0, radius, 0)`
(for `-90`: `(0, -radius, 0)`) whenever `Math.cos latRad = 0` and
`Math.sin latRad = 1` (for `-90`: `-1`), as the exact cosine and sine with
`Math.PI = π` give. -/
theorem getPositionFromLatLon_poles_near_axis (Math : JSMath ℝ) (longitude radius : ℝ)
    (hcos : |Math.cos (-(longitude + 180) * (Math.PI / 180))| ≤ 1)
    (hsin : |Math.sin (-(longitude + 180) * (Math.PI / 180))| ≤ 1) :
    ((EarthViewer.getPositionFromLatLon Math 90 longitude radius).y =
        radius * Math.sin (90 * (Math.PI / 180)) ∧
      |(EarthViewer.getPositionFromLatLon Math 90 longitude radius).x| ≤
        |radius * Math.cos (90 * (Math.PI / 180))| ∧
      |(EarthViewer.getPositionFromLatLon Math 90 longitude radius).z| ≤
        |radius * Math.cos (90 * (Math.PI / 180))|) ∧
    ((EarthViewer.getPositionFromLatLon Math (-90) longitude radius).y =
        radius * Math.sin (-90 * (Math.PI / 180)) ∧
      |(EarthViewer.getPositionFromLatLon Math (-90) longitude radius).x| ≤
        |radius * Math.cos (-90 * (Math.PI / 180))| ∧
      |(EarthViewer.getPositionFromLatLon Math (-90) longitude radius).z| ≤
        |radius * Math.cos (-90 * (Math.PI / 180))|) ∧
    (Math.cos (90 * (Math.PI / 180)) = 0 → Math.sin (90 * (Math.PI / 180)) = 1 →
      EarthViewer.getPositionFromLatLon Math 90 longitude radius = ⟨0, radius, 0⟩) ∧
    (Math.cos (-90 * (Math.PI / 180)) = 0 → Math.sin (-90 * (Math.PI / 180)) = -1 →
      EarthViewer.getPositionFromLatLon Math (-90) longitude radius = ⟨0, -radius, 0⟩) := by
  have shrink : ∀ a b : ℝ, |b| ≤ 1 → |a * b| ≤ |a| := by
    intro a b hb
    rw [abs_mul]
    exact mul_le_of_le_one_right (abs_nonneg a) hb
  refine ⟨⟨?_, ?_, ?_⟩, ⟨?_, ?_, ?_⟩, ?_, ?_⟩
  · simp only [EarthViewer.getPositionFromLatLon, Nat.cast_ofNat]
  · simp only [EarthViewer.getPositionFromLatLon, Nat.cast_ofNat]
    exact shrink _ _ hcos
  · simp only [EarthViewer.getPositionFromLatLon, Nat.cast_ofNat]
    exact shrink _ _ hsin
  · simp only [EarthViewer.getPositionFromLatLon, Nat.cast_ofNat]
  · simp only [EarthViewer.getPositionFromLatLon, Nat.cast_ofNat]
    exact shrink _ _ hcos
  · simp only [EarthViewer.getPositionFromLatLon, Nat.cast_ofNat]
    exact shrink _ _ hsin
  · intro hc hs
    simp only [EarthViewer.getPositionFromLatLon, Nat.cast_ofNat, hc, hs, mul_zero, zero_mul,
      mul_one]
  · intro hc hs
    simp only [EarthViewer.getPositionFromLatLon, Nat.cast_ofNat, hc, hs, mul_zero, zero_mul,
      mul_neg, mul_one]

/-- Witness for C3: with `Math.PI = π` and the exact cosine and sine, at
longitude `37` and radius `2`, the hypotheses hold and both poles lie on the
polar axis. -/
theorem getPositionFromLatLon_poles_near_axis_witness :
    |Real.cos (-((37 : ℝ) + 180) * (Real.pi / 180))| ≤ 1 ∧
    |Real.sin (-((37 : ℝ) + 180) * (Real.pi / 180))| ≤ 1 ∧
    EarthViewer.getPositionFromLatLon ⟨Real.pi, Real.cos, Real.sin⟩ 90 37 2 = ⟨0, 2, 0⟩ ∧
    EarthViewer.getPositionFromLatLon ⟨Real.pi, Real.cos, Real.sin⟩ (-90) 37 2 = ⟨0, -2, 0⟩ := by
  have north : (90 : ℝ) * (Real.pi / 180) = Real.pi / 2 := by ring
  have south : (-90 : ℝ) * (Real.pi / 180) = -(Real.pi / 2) := by ring
  have h := getPositionFromLatLon_poles_near_axis ⟨Real.pi, Real.cos, Real.sin⟩ 37 2
    (Real.abs_cos_le_one _) (Real.abs_sin_le_one _)
  refine ⟨Real.abs_cos_le_one _, Real.abs_sin_le_one _, h.2.2.1 ?_ ?_, h.2.2.2 ?_ ?_⟩
  · simp only [north, Real.cos_pi_div_two]
  · simp only [north, Real.sin_pi_div_two]
  · simp only [south, Real.cos_neg, Real.cos_pi_div_two]
  · simp only [south, Real.sin_neg, Real.sin_pi_div_two]

/-- C3, counterexample on doubles: `Math.cos (90 * (Math.PI / 180))`
is `6.123233995736766e-17`, so at longitude `0` and radius `1` the north pole is
mapped to `(-6.123233995736766e-17, 1, -7.498798913309288e-33)` and the south
pole gets the same `x` and `z`; neither lies on the polar axis. -/
theorem poles_off_axis_on_doubles :
    EarthViewer.getPositionFromLatLon Double.hostMath 90 0 1 =
      ⟨-6.123233995736766e-17, 1, -7.498798913309288e-33⟩ ∧
    EarthViewer.getPositionFromLatLon Double.hostMath 90 0 1 ≠ ⟨0, 1, 0⟩ ∧
    EarthViewer.getPositionFromLatLon Double.hostMath (-90) 0 1 =
      ⟨-6.123233995736766e-17, -1, -7.498798913309288e-33⟩ ∧
    EarthViewer.getPositionFromLatLon Double.hostMath (-90) 0 1 ≠ ⟨0, -1, 0⟩ := by
  decide!

/-- C4, corrected statement: when `Math.cos 0 = 1` and `Math.sin 0 = 0`, for every radius
`R` the point `(0, -180, R)` maps to `(R, 0, 0)`, and the point `(0, 0, R)` maps
to `(R * Math.cos lonRad, 0, R * Math.sin lonRad)` with
`lonRad = -(180 * (Math.PI / 180))`; the latter is `(-R, 0, 0)` whenever
`Math.cos lonRad = -1` and `Math.sin lonRad = 0`, as the exact cosine and sine
with `Math.PI = π` give. -/
theorem getPositionFromLatLon_equator_reference_of_trig (Math : JSMath ℝ) (R : ℝ)
    (hcos0 : Math.cos 0 = 1) (hsin0 : Math.sin 0 = 0) :
    EarthViewer.getPositionFromLatLon Math 0 (-180) R = ⟨R, 0, 0⟩ ∧
    EarthViewer.getPositionFromLatLon Math 0 0 R =
      ⟨R * Math.cos (-(180 * (Math.PI / 180))), 0, R * Math.sin (-(180 * (Math.PI / 180)))⟩ ∧
    (Math.cos (-(180 * (Math.PI / 180))) = -1 → Math.sin (-(180 * (Math.PI / 180))) = 0 →
      EarthViewer.getPositionFromLatLon Math 0 0 R = ⟨-R, 0, 0⟩) := by
  have greenwich : ∀ c : ℝ, -((0 : ℝ) + 180) * c = -(180 * c) := by
    intro c
    ring
  have antimeridian : ∀ c : ℝ, -((-180 : ℝ) + 180) * c = 0 := by
    intro c
    ring
  have formula : EarthViewer.getPositionFromLatLon Math 0 0 R =
      ⟨R * Math.cos (-(180 * (Math.PI / 180))), 0,
        R * Math.sin (-(180 * (Math.PI / 180)))⟩ := by
    simp only [EarthViewer.getPositionFromLatLon, Nat.cast_ofNat, greenwich, zero_mul, hcos0,
      hsin0, mul_one, mul_zero]
  refine ⟨?_, formula, ?_⟩
  · simp only [EarthViewer.getPositionFromLatLon, Nat.cast_ofNat, antimeridian, zero_mul, hcos0,
      hsin0, mul_one, mul_zero]
  · intro hc hs
    rw [formula, hc, hs, mul_neg, mul_one, mul_zero]

/-- Witness for C4: with `Math.PI = π` and the exact cosine and sine, at radius
`5`, the hypotheses hold and the two reference points map to `(5, 0, 0)` and
`(-5, 0, 0)`. -/
theorem getPositionFromLatLon_equator_reference_of_trig_witness :
    Real.cos 0 = 1 ∧ Real.sin 0 = 0 ∧
    EarthViewer.getPositionFromLatLon ⟨Real.pi, Real.cos, Real.sin⟩ 0 (-180) 5 = ⟨5, 0, 0⟩ ∧
    EarthViewer.getPositionFromLatLon ⟨Real.pi, Real.cos, Real.sin⟩ 0 0 5 = ⟨-5, 0, 0⟩ := by
  have half_turn : (180 : ℝ) * (Real.pi / 180) = Real.pi := by ring
  have h := getPositionFromLatLon_equator_reference_of_trig ⟨Real.pi, Real.cos, Real.sin⟩ 5
    Real.cos_zero Real.sin_zero
  refine ⟨Real.cos_zero, Real.sin_zero, h.1, h.2.2 ?_ ?_⟩
  · simp only [half_turn, Real.cos_neg, Real.cos_pi]
  · simp only [half_turn, Real.sin_neg, Real.sin_pi, neg_zero]

/-- C4, counterexample on doubles: `Math.sin (-Math.PI)` is
`-1.2246467991473532e-16`, so `(0, 0, 5)` maps to
`(-5, 0, -6.123233995736766e-16)`, not to `(-5, 0, 0)`; the other reference
point `(0, -180, 5)` does map to `(5, 0, 0)`. -/
theorem equator_reference_inexact_on_doubles :
    EarthViewer.getPositionFromLatLon Double.hostMath 0 0 5 =
      ⟨-5, 0, -6.123233995736766e-16⟩ ∧
    EarthViewer.getPositionFromLatLon Double.hostMath 0 0 5 ≠ ⟨-5, 0, 0⟩ ∧
    EarthViewer.getPositionFromLatLon Double.hostMath 0 (-180) 5 = ⟨5, 0, 0⟩ := by
  decide!

/-- C6: radius zero collapses every latitude and longitude to the origin; this
holds whatever the host's `PI`, `cos` and `sin` are. -/
theorem getPositionFromLatLon_zero_radius (Math : JSMath ℝ) (latitude longitude : ℝ) :
    EarthViewer.getPositionFromLatLon Math latitude longitude 0 = ⟨0, 0, 0⟩ := by
  simp only [EarthViewer.getPositionFromLatLon, zero_mul]

/-- C7: negating the radius reflects the position through the origin: the result
for `-radius` is the componentwise negation of the result for `radius`; this
holds whatever the host's `PI`, `cos` and `sin` are. -/
theorem getPositionFromLatLon_neg_radius (Math : JSMath ℝ) (latitude longitude radius : ℝ) :
    EarthViewer.getPositionFromLatLon Math latitude longitude (-radius) =
      ⟨-(EarthViewer.getPositionFromLatLon Math latitude longitude radius).x,
        -(EarthViewer.getPositionFromLatLon Math latitude longitude radius).y,
        -(EarthViewer.getPositionFromLatLon Math latitude longitude radius).z⟩ := by
  simp only [EarthViewer.getPositionFromLatLon, neg_mul]

/-- C10, corrected statement: the position lies on the sphere of the given radius up to
rounding.  If each of the four products that form `x`, `y` and `z` is rounded
with relative error at most `u`, and `Math.sin t ^ 2 + Math.cos t ^ 2` is within
`ε` of `1`, then `x ^ 2 + y ^ 2 + z ^ 2` lies between
`radius ^ 2 * ((1 - u) ^ 4 * (1 - ε) ^ 2)` and
`radius ^ 2 * ((1 + u) ^ 4 * (1 + ε) ^ 2)`; binary64 multiplication has
`u = 2 ^ (-53)` as long as no product underflows or overflows.  In exact
arithmetic, when `Math.sin ^ 2 + Math.cos ^ 2 = 1` at the latitude angle and at
the longitude angle, `x ^ 2 + y ^ 2 + z ^ 2 = radius ^ 2`. -/
theorem getPositionFromLatLon_on_sphere_up_to_rounding (rnd : ℝ → ℝ) (u ε : ℝ)
    (Math : JSMath ℝ) (latitude longitude radius : ℝ)
    (hu0 : 0 ≤ u) (hu1 : u ≤ 1) (hε0 : 0 ≤ ε) (hε1 : ε ≤ 1)
    (htrig : ∀ t, |Math.sin t ^ 2 + Math.cos t ^ 2 - 1| ≤ ε)
    (hrc : ∀ t, |rnd (radius * Math.cos t) - radius * Math.cos t| ≤ u * |radius * Math.cos t|)
    (hrs : ∀ t, |rnd (radius * Math.sin t) - radius * Math.sin t| ≤ u * |radius * Math.sin t|)
    (hx : ∀ s t, |rnd (rnd (radius * Math.cos s) * Math.cos t)
        - rnd (radius * Math.cos s) * Math.cos t| ≤ u * |rnd (radius * Math.cos s) * Math.cos t|)
    (hz : ∀ s t, |rnd (rnd (radius * Math.cos s) * Math.sin t)
        - rnd (radius * Math.cos s) * Math.sin t| ≤ u * |rnd (radius * Math.cos s) * Math.sin t|) :
    (radius ^ 2 * ((1 - u) ^ 4 * (1 - ε) ^ 2) ≤
        (EarthViewer.getPositionFromLatLonRounded rnd Math latitude longitude radius).x ^ 2 +
        (EarthViewer.getPositionFromLatLonRounded rnd Math latitude longitude radius).y ^ 2 +
        (EarthViewer.getPositionFromLatLonRounded rnd Math latitude longitude radius).z ^ 2 ∧
      (EarthViewer.getPositionFromLatLonRounded rnd Math latitude longitude radius).x ^ 2 +
        (EarthViewer.getPositionFromLatLonRounded rnd Math latitude longitude radius).y ^ 2 +
        (EarthViewer.getPositionFromLatLonRounded rnd Math latitude longitude radius).z ^ 2 ≤
        radius ^ 2 * ((1 + u) ^ 4 * (1 + ε) ^ 2)) ∧
    (Math.sin (latitude * (Math.PI / 180)) ^ 2 + Math.cos (latitude * (Math.PI / 180)) ^ 2 = 1 →
      Math.sin (-(longitude + 180) * (Math.PI / 180)) ^ 2
        + Math.cos (-(longitude + 180) * (Math.PI / 180)) ^ 2 = 1 →
      (EarthViewer.getPositionFromLatLon Math latitude longitude radius).x ^ 2 +
        (EarthViewer.getPositionFromLatLon Math latitude longitude radius).y ^ 2 +
        (EarthViewer.getPositionFromLatLon Math latitude longitude radius).z ^ 2 = radius ^ 2) := by
  constructor
  · obtain ⟨p, q, h⟩ : ∃ p q : ℝ,
        EarthViewer.getPositionFromLatLonRounded rnd Math latitude longitude radius =
          ⟨rnd (rnd (radius * Math.cos p) * Math.cos q), rnd (radius * Math.sin p),
            rnd (rnd (radius * Math.cos p) * Math.sin q)⟩ := ⟨_, _, rfl⟩
    rw [h]
    exact sphere_bounds_of_rel_err hu0 hu1 hε0 hε1 (htrig p) (htrig q) (hrc p) (hx p q) (hrs p)
      (hz p q)
  · intro hlat hlon
    simp only [EarthViewer.getPositionFromLatLon, Nat.cast_ofNat]
    linear_combination
      (radius ^ 2 * Math.cos (latitude * (Math.PI / 180)) ^ 2) * hlon + radius ^ 2 * hlat

/-- Witness for C10: a rounding that enlarges every result by the factor
`1 + 1 / 2 ^ 53`, with `u = 1 / 2 ^ 53`, `ε = 0`, `Math.PI = π` and the exact
cosine and sine, at latitude `10`, longitude `0` and radius `1`: the hypotheses
hold, the rounded position is within the bounds, and the position computed in
exact arithmetic lies on the unit sphere. -/
theorem getPositionFromLatLon_on_sphere_up_to_rounding_witness :
    ((1 : ℝ) ^ 2 * ((1 - 1 / 2 ^ 53) ^ 4 * (1 - 0) ^ 2) ≤
        (EarthViewer.getPositionFromLatLonRounded (fun t : ℝ => t * (1 + 1 / 2 ^ 53))
          ⟨Real.pi, Real.cos, Real.sin⟩ 10 0 1).x ^ 2 +
        (EarthViewer.getPositionFromLatLonRounded (fun t : ℝ => t * (1 + 1 / 2 ^ 53))
          ⟨Real.pi, Real.cos, Real.sin⟩ 10 0 1).y ^ 2 +
        (EarthViewer.getPositionFromLatLonRounded (fun t : ℝ => t * (1 + 1 / 2 ^ 53))
          ⟨Real.pi, Real.cos, Real.sin⟩ 10 0 1).z ^ 2 ∧
      (EarthViewer.getPositionFromLatLonRounded (fun t : ℝ => t * (1 + 1 / 2 ^ 53))
          ⟨Real.pi, Real.cos, Real.sin⟩ 10 0 1).x ^ 2 +
        (EarthViewer.getPositionFromLatLonRounded (fun t : ℝ => t * (1 + 1 / 2 ^ 53))
          ⟨Real.pi, Real.cos, Real.sin⟩ 10 0 1).y ^ 2 +
        (EarthViewer.getPositionFromLatLonRounded (fun t : ℝ => t * (1 + 1 / 2 ^ 53))
          ⟨Real.pi, Real.cos, Real.sin⟩ 10 0 1).z ^ 2 ≤
        (1 : ℝ) ^ 2 * ((1 + 1 / 2 ^ 53) ^ 4 * (1 + 0) ^ 2)) ∧
    (EarthViewer.getPositionFromLatLon ⟨Real.pi, Real.cos, Real.sin⟩ 10 0 1).x ^ 2 +
      (EarthViewer.getPositionFromLatLon ⟨Real.pi, Real.cos, Real.sin⟩ 10 0 1).y ^ 2 +
      (EarthViewer.getPositionFromLatLon ⟨Real.pi, Real.cos, Real.sin⟩ 10 0 1).z ^ 2
        = (1 : ℝ) ^ 2 := by
  have hu0 : (0 : ℝ) ≤ 1 / 2 ^ 53 := by positivity
  have hu1 : (1 : ℝ) / 2 ^ 53 ≤ 1 := by norm_num
  have enlarge : ∀ p : ℝ, |p * (1 + 1 / 2 ^ 53) - p| ≤ 1 / 2 ^ 53 * |p| := by
    intro p
    have e : p * (1 + 1 / 2 ^ 53) - p = 1 / 2 ^ 53 * p := by ring
    rw [e, abs_mul, abs_of_nonneg hu0]
  have trig : ∀ t : ℝ, |Real.sin t ^ 2 + Real.cos t ^ 2 - 1| ≤ 0 := by
    intro t
    rw [Real.sin_sq_add_cos_sq, sub_self, abs_zero]
  have h := getPositionFromLatLon_on_sphere_up_to_rounding (fun t : ℝ => t * (1 + 1 / 2 ^ 53))
    (1 / 2 ^ 53) 0 ⟨Real.pi, Real.cos, Real.sin⟩ 10 0 1 hu0 hu1 le_rfl zero_le_one trig
    (fun t => enlarge _) (fun t => enlarge _) (fun s t => enlarge _) (fun s t => enlarge _)
  exact ⟨h.1, h.2 (Real.sin_sq_add_cos_sq _) (Real.sin_sq_add_cos_sq _)⟩

/-- C10, counterexample on doubles: at latitude `10`, longitude `0`
and radius `1` the sum `x * x + y * y + z * z` evaluates to `0.9999999999999999`
in double arithmetic, and the exact sum of the squares of the three doubles is
not `1` either. -/
theorem on_sphere_fails_on_doubles :
    (EarthViewer.getPositionFromLatLon Double.hostMath 10 0 1).x
        * (EarthViewer.getPositionFromLatLon Double.hostMath 10 0 1).x
      + (EarthViewer.getPositionFromLatLon Double.hostMath 10 0 1).y
        * (EarthViewer.getPositionFromLatLon Double.hostMath 10 0 1).y
      + (EarthViewer.getPositionFromLatLon Double.hostMath 10 0 1).z
        * (EarthViewer.getPositionFromLatLon Double.hostMath 10 0 1).z
      = 0.9999999999999999 ∧
    (0.9999999999999999 : Double) ≠ 1 * 1 ∧
    (Double.toRat (EarthViewer.getPositionFromLatLon Double.hostMath 10 0 1).x).bind (fun x =>
      (Double.toRat (EarthViewer.getPositionFromLatLon Double.hostMath 10 0 1).y).bind (fun y =>
        (Double.toRat (EarthViewer.getPositionFromLatLon Double.hostMath 10 0 1).z).map (fun z =>
          x * x + y * y + z * z))) ≠ some (1 * 1) := by
  decide!

/-! ## Placement and rotation -/

/-- C5: while `earthModelRoot` is `null`, each of `addGeoMarker`,
`addCoordinateLabel` and `addLatLonGrid` returns, for every argument, the state
it was given: the viewer's fields are unchanged and the world holds the same
meshes, materials and GUI textures, so nothing was created.  This holds for
every number type and every host `Math`. -/
theorem placement_before_ready_is_noop {α : Type} [Add α] [Mul α] [Neg α] [Div α] [NatCast α]
    [OfScientific α] (Math : JSMath α) (numToString : α → String) (s : State α)
    (hroot : s.viewer.earthModelRoot = none) (latitude longitude : α)
    (color : Option (Color3 α)) (text : String) (stepDeg : Option α) :
    EarthViewer.addGeoMarker Math numToString s latitude longitude color = s ∧
    EarthViewer.addCoordinateLabel Math s latitude longitude text = s ∧
    EarthViewer.addLatLonGrid s stepDeg = s := by
  simp only [EarthViewer.addGeoMarker, EarthViewer.addCoordinateLabel,
    EarthViewer.addLatLonGrid, hroot, and_self]

/-- Witness for C5: the freshly constructed viewer over an empty world has no
root model, and the three placement methods return that state unchanged. -/
theorem placement_before_ready_is_noop_witness :
    (⟨EarthViewer.constructor 0 1, ⟨[], [], [], 0⟩⟩ : State ℚ).viewer.earthModelRoot = none ∧
    (EarthViewer.addGeoMarker ⟨3, id, id⟩ (fun _ => "q")
        (⟨EarthViewer.constructor 0 1, ⟨[], [], [], 0⟩⟩ : State ℚ) (-22.9) (-43.2) none =
          ⟨EarthViewer.constructor 0 1, ⟨[], [], [], 0⟩⟩ ∧
      EarthViewer.addCoordinateLabel ⟨3, id, id⟩
        (⟨EarthViewer.constructor 0 1, ⟨[], [], [], 0⟩⟩ : State ℚ) 90 0 "90N" =
          ⟨EarthViewer.constructor 0 1, ⟨[], [], [], 0⟩⟩ ∧
      EarthViewer.addLatLonGrid
        (⟨EarthViewer.constructor 0 1, ⟨[], [], [], 0⟩⟩ : State ℚ) (some 30) =
          ⟨EarthViewer.constructor 0 1, ⟨[], [], [], 0⟩⟩) :=
  ⟨rfl, placement_before_ready_is_noop ⟨3, id, id⟩ (fun _ => "q")
    ⟨EarthViewer.constructor 0 1, ⟨[], [], [], 0⟩⟩ rfl (-22.9) (-43.2) none "90N" (some 30)⟩

/-- C8: once `earthModelRoot` is set, `addGeoMarker(latitude, longitude, color)`
leaves the viewer's fields alone and adds exactly one sphere mesh to the world;
that mesh sits at `getPositionFromLatLon(latitude, longitude, earthRadiusScaled + 4.9)`
and its parent is the viewer's rotation node.  The constructor sets
`earthRadiusScaled` to `58 * 0.01 / 2 = 0.29`. -/
theorem addGeoMarker_creates_one_marker (Math : JSMath ℝ) (numToString : ℝ → String)
    (s : State ℝ) (root : Handle) (hroot : s.viewer.earthModelRoot = some root)
    (latitude longitude : ℝ) (color : Option (Color3 ℝ)) :
    (∃ marker : SphereMesh ℝ,
      (EarthViewer.addGeoMarker Math numToString s latitude longitude color).world.meshes =
        s.world.meshes ++ [marker] ∧
      marker.position =
        EarthViewer.getPositionFromLatLon Math latitude longitude
          (s.viewer.earthRadiusScaled + 4.9) ∧
      marker.parent = s.viewer.rotationNode.map (fun n => n.uniqueId)) ∧
    (EarthViewer.addGeoMarker Math numToString s latitude longitude color).viewer = s.viewer ∧
    (EarthViewer.addGeoMarker Math numToString s latitude longitude color).world.guiTextures =
      s.world.guiTextures ∧
    (∀ engine canvas : Handle,
      (EarthViewer.constructor engine canvas : EarthViewer ℝ).earthRadiusScaled = 58 * 0.01 / 2 ∧
      (EarthViewer.constructor engine canvas : EarthViewer ℝ).earthRadiusScaled = 0.29) := by
  refine ⟨?_, ?_, ?_, ?_⟩
  · simp only [EarthViewer.addGeoMarker, hroot]
    exact ⟨_, rfl, rfl, rfl⟩
  · simp only [EarthViewer.addGeoMarker, hroot]
  · simp only [EarthViewer.addGeoMarker, hroot]
  · intro engine canvas
    simp only [EarthViewer.constructor, Nat.cast_ofNat]
    norm_num

/-- Witness for C8: a viewer built by the constructor whose root model, rotation
node and scene have been set, over an empty world. -/
theorem addGeoMarker_creates_one_marker_witness :
    (⟨{ (EarthViewer.constructor 0 1 : EarthViewer ℝ) with
          earthModelRoot := some 2
          rotationNode := some ⟨3, "RotationNode", ⟨0, 0, 0⟩⟩
          scene := some 4 }, ⟨[], [], [], 0⟩⟩ : State ℝ).viewer.earthModelRoot = some 2 ∧
    ∃ marker : SphereMesh ℝ,
      (EarthViewer.addGeoMarker ⟨Real.pi, Real.cos, Real.sin⟩ (fun _ => "lat")
        ⟨{ (EarthViewer.constructor 0 1 : EarthViewer ℝ) with
            earthModelRoot := some 2
            rotationNode := some ⟨3, "RotationNode", ⟨0, 0, 0⟩⟩
            scene := some 4 }, ⟨[], [], [], 0⟩⟩
        (-22.9) (-43.2) none).world.meshes = [] ++ [marker] ∧
      marker.position =
        EarthViewer.getPositionFromLatLon ⟨Real.pi, Real.cos, Real.sin⟩ (-22.9) (-43.2)
          ((EarthViewer.constructor 0 1 : EarthViewer ℝ).earthRadiusScaled + 4.9) ∧
      marker.parent = some 3 :=
  ⟨rfl, (addGeoMarker_creates_one_marker ⟨Real.pi, Real.cos, Real.sin⟩ (fun _ => "lat")
    ⟨{ (EarthViewer.constructor 0 1 : EarthViewer ℝ) with
        earthModelRoot := some 2
        rotationNode := some ⟨3, "RotationNode", ⟨0, 0, 0⟩⟩
        scene := some 4 }, ⟨[], [], [], 0⟩⟩
    2 rfl (-22.9) (-43.2) none).1⟩

/-- C9, corrected statement: one invocation of the render callback replaces the rotation
node's yaw by `yaw + rotationSpeed`, evaluated in the program's arithmetic, when
the node exists and `isRotating` is true, and leaves the yaw as it was
otherwise; after `n` frames with `isRotating` true the yaw is the result of `n`
such additions in a row, and with `isRotating` false it is unchanged.  In exact
real arithmetic the `n` additions amount to `yaw + n * rotationSpeed`. -/
theorem render_loop_yaw_rounded {α : Type} [Add α] (s : State α) (scene : Handle) (n : ℕ) :
    (EarthViewer.renderLoopCallback s scene).yaw =
      (if s.viewer.isRotating then s.yaw.map (fun y => y + s.viewer.rotationSpeed)
        else s.yaw) ∧
    (EarthViewer.startRenderLoop s scene n).yaw =
      (if s.viewer.isRotating then
          s.yaw.map (fun y => (fun v => v + s.viewer.rotationSpeed)^[n] y)
        else s.yaw) ∧
    (∀ r : State ℝ,
      (EarthViewer.startRenderLoop r scene n).yaw =
        (if r.viewer.isRotating then
            r.yaw.map (fun y => y + (n : ℝ) * r.viewer.rotationSpeed)
          else r.yaw)) := by
  refine ⟨renderLoopCallback_yaw s scene, startRenderLoop_yaw s scene n, ?_⟩
  intro r
  rw [startRenderLoop_yaw]
  simp only [iterate_add_exact]

/-- C9, counterexample on doubles: from the constructor's
`rotationSpeed` `0.0021` and yaw `0`, six frames give the yaw
`0.012599999999999998`, while `6 * rotationSpeed` is `0.0126` in double
arithmetic and is not the yaw in exact arithmetic either; and from yaw
`1e16` one frame leaves the yaw at `1e16` although the node exists,
`isRotating` is true and `rotationSpeed` is not zero. -/
theorem render_loop_yaw_inexact_on_doubles :
    (EarthViewer.startRenderLoop
      (⟨{ (EarthViewer.constructor 0 1 : EarthViewer Double) with
            rotationNode := some ⟨3, "RotationNode", ⟨0, 0, 0⟩⟩ }, ⟨[], [], [], 0⟩⟩ : State Double)
      4 6).yaw = some 0.012599999999999998 ∧
    (0 : Double) + 6 * (EarthViewer.constructor 0 1 : EarthViewer Double).rotationSpeed = 0.0126 ∧
    (0.012599999999999998 : Double) ≠ 0.0126 ∧
    Double.toRat 0.012599999999999998 ≠
      (Double.toRat (EarthViewer.constructor 0 1 : EarthViewer Double).rotationSpeed).map
        (fun v => 0 + 6 * v) ∧
    (EarthViewer.constructor 0 1 : EarthViewer Double).isRotating = true ∧
    (EarthViewer.constructor 0 1 : EarthViewer Double).rotationSpeed ≠ 0 ∧
    (EarthViewer.renderLoopCallback
      (⟨{ (EarthViewer.constructor 0 1 : EarthViewer Double) with
            rotationNode := some ⟨3, "RotationNode", ⟨0, 1e16, 0⟩⟩ }, ⟨[], [], [], 0⟩⟩ : State Double)
      4).yaw = some 1e16 := by
  decide!

end GlbHosting
